import Mathlib

/-!
Shallow embedding of `src/mqtt-bench/mqtt-bench.go` (package main of the
mqtt-bench load-generation tool) and proofs about the claims of its design
specification.

Conventions of the embedding:
- Go strings are modelled as `List Nat` of their bytes where byte-level
  content matters (messages, topics), and as Lean `String` where only
  concatenation and containment matter (the printed summary line).
- Go `int` is modelled as `Int`; Go integer division truncates toward
  zero, which is `Int.tdiv` (Lean's `/` on `Int` is Euclidean and differs
  on negative operands). Go `%` on nonnegative values agrees with `Nat`
  `%`. Go `byte(x)` truncates to the low 8 bits, i.e. `x % 256` with the
  Euclidean `%` on `Int`.
- Go `string(n)` for an integer `n` yields the UTF-8 encoding of the code
  point `n`, with every invalid code point (surrogates, out-of-range)
  replaced by U+FFFD. This conversion is embedded as `goEncodeRune`.
- `float64` arithmetic of the throughput computation is modelled by `ℚ`.
- Effects (connect attempts, publish/subscribe calls, log lines, the
  printed report) are modelled by explicit data: a `RunTrace` records
  which clients were connected and disconnected, how many operations the
  worker phase performed, and the report (if any) that is printed.
-/

namespace MqttBench

/-- Execution options, from the Go struct `ExecOptions` (mqtt-bench.go
lines 14-20): broker URI, number of concurrent clients, messages per
client, message size in bytes, and QoS. `Qos` is a Go `byte`, modelled as
a `Nat` (always `< 256` when produced by `byteOfInt`). -/
structure ExecOptions where
  Broker : String
  ClientNum : Int
  Count : Int
  MessageSize : Int
  Qos : Nat
deriving DecidableEq

/-- UTF-8 encoding of a code point `c` (as its list of bytes), following
the standard 1/2/3/4-byte layout. Used to embed Go's integer-to-string
conversion. -/
def utf8EncodeValid (c : Nat) : List Nat :=
  if c < 0x80 then [c]
  else if c < 0x800 then [0xC0 + c / 64, 0x80 + c % 64]
  else if c < 0x10000 then [0xE0 + c / 4096, 0x80 + (c / 64) % 64, 0x80 + c % 64]
  else [0xF0 + c / 262144, 0x80 + (c / 4096) % 64, 0x80 + (c / 64) % 64, 0x80 + c % 64]

/-- Go's conversion `string(n)` for a nonnegative integer `n`: the UTF-8
bytes of the code point `n` when `n` is a valid Unicode scalar value, and
the bytes of the replacement character U+FFFD otherwise (surrogates
0xD800-0xDFFF and values above 0x10FFFF are invalid). The converted
values in the source (`i % 10`, loop indices) are all nonnegative, so a
`Nat` argument suffices. -/
def goEncodeRune (n : Nat) : List Nat :=
  if n < 0xD800 ∨ (0xE000 ≤ n ∧ n ≤ 0x10FFFF) then utf8EncodeValid n
  else utf8EncodeValid 0xFFFD

/-- The loop body of `CreateFixedSizeMessage` (mqtt-bench.go lines
130-138): after `n` iterations the buffer holds the concatenation of the
bytes of `string(i % 10)` for `i = 0, ..., n-1`. -/
def createLoop : Nat → List Nat
  | 0 => []
  | n + 1 => createLoop n ++ goEncodeRune (n % 10)

/-- The Go function `CreateFixedSizeMessage(size int) string` (mqtt-bench.go
lines 130-138), as the list of bytes of the returned string. A
non-positive `size` runs the loop zero times. -/
def CreateFixedSizeMessage (size : Int) : List Nat :=
  createLoop size.toNat

/-- Modelled from the spec: the message the specification describes for
`CreateFixedSizeMessage` — the ASCII digit characters 0-9 cycling from
index 0 (so byte `i` is the character code of the digit `i % 10`). Stated
from the spec's words for comparison with the source's function; it is
not part of the source. -/
def specDigitMessage (size : Nat) : List Nat :=
  (List.range size).map (fun i => 48 + i % 10)

/-- The bytes of the topic path root "/go-mqtt/benchmark/" used by
`PublishAllClient` (line 81) and `SubscribeAllClient` (line 111). -/
def topicBase : List Nat :=
  [47, 103, 111, 45, 109, 113, 116, 116, 47, 98, 101, 110, 99, 104, 109, 97, 114, 107, 47]

/-- The topic string built at client index `id` and iteration `index`:
`"/go-mqtt/benchmark/" + string(id) + "/" + string(index)` (mqtt-bench.go
lines 81 and 111), as its list of bytes. -/
def topicName (id index : Nat) : List Nat :=
  topicBase ++ goEncodeRune id ++ [47] ++ goEncodeRune index

/-- Decoder for one UTF-8-encoded code point of at most three bytes at the
head of a byte list; returns the code point and the remaining bytes. Used
to show the topic encoding is injective for indices below the surrogate
range. -/
def decodeOne : List Nat → Option (Nat × List Nat)
  | [] => none
  | b :: rest =>
    if b < 0x80 then some (b, rest)
    else if b < 0xE0 then
      match rest with
      | b2 :: rest2 => some ((b - 0xC0) * 64 + (b2 - 0x80), rest2)
      | [] => none
    else
      match rest with
      | b2 :: b3 :: rest3 => some ((b - 0xE0) * 4096 + (b2 - 0x80) * 64 + (b3 - 0x80), rest3)
      | _ => none

/-- Decoder for the variable part of a topic: one encoded code point, a
slash byte, one encoded code point, end of list. -/
def decodeTopicBody (l : List Nat) : Option (Nat × Nat) :=
  match decodeOne l with
  | some (i, 47 :: rest) =>
    match decodeOne rest with
    | some (j, []) => some (i, j)
    | _ => none
  | _ => none

/-- The value of Go's `time.Now().Nanosecond()` at absolute wall-clock
time `t` nanoseconds: the nanosecond offset within the current second,
in the range 0 through 999999999 — not a timestamp. -/
def nanosecondField (t : Nat) : Nat :=
  t % 1000000000

/-- The duration computed at mqtt-bench.go line 60:
`(endTime - startTime) / 1000000` with Go `int` division (truncation
toward zero, `Int.tdiv`), where both operands are `Nanosecond()` field
values. -/
def reportedDurationMs (startTime endTime : Nat) : Int :=
  Int.tdiv ((endTime : Int) - (startTime : Int)) 1000000

/-- Two-digit decimal rendering of a value below 100, zero-padded. -/
def pad2 (m : Nat) : String :=
  (if m < 10 then "0" else "") ++ toString m

/-- Fixed-point rendering of a rational with two digits after the decimal
point, modelling the `%.2f` format verb applied to the throughput (the
binary `float64` rounding is modelled by rounding the rational to
hundredths). -/
def fmtFixed2 (q : ℚ) : String :=
  (if round (q * 100) < 0 then "-" else "") ++
    toString ((round (q * 100)).natAbs / 100) ++ "." ++ pad2 ((round (q * 100)).natAbs % 100)

/-- The summary line printed by `fmt.Printf` at mqtt-bench.go lines 62-63,
with the duration and the formatted throughput passed in. The format
string is fixed; it does not depend on whether the run published or
subscribed. -/
def summaryLine (broker : String) (clients count durationMs : Int) (throughputStr : String) : String :=
  "\nPublish result : broker=" ++ broker ++ ", clients=" ++ toString clients ++
    ", count=" ++ toString count ++ ", duration=" ++ toString durationMs ++
    "ms, throughput=" ++ throughputStr ++ "messages/sec\n"

/-- Substring containment on strings, used to state what the summary line
contains. -/
def containsSub (s t : String) : Prop :=
  ∃ a b, s = a ++ t ++ b

/-- The sequence of operations one Worker goroutine performs (mqtt-bench.go
lines 76-83 and 106-113): iterations `0, ..., count-1` against the one
client handle `id` it was assigned. Each element is the pair (client
index, iteration index). -/
def workerOps (id count : Nat) : List (Nat × Nat) :=
  (List.range count).map (fun index => (id, index))

/-- The per-client operation lists of `PublishAllClient` (mqtt-bench.go
lines 67-87): one Worker per client, each performing `count` sequential
operations. `SubscribeAllClient` (lines 99-117) has the identical loop
structure. -/
def PublishAllClientOps (numClients count : Nat) : List (List (Nat × Nat)) :=
  (List.range numClients).map (fun id => workerOps id count)

/-- The total number of operations performed by `PublishAllClient` when
called by `Execute` with options `opts`. -/
def execPub (opts : ExecOptions) : Nat :=
  ((PublishAllClientOps opts.ClientNum.toNat opts.Count.toNat).map List.length).sum

/-- The total number of operations performed by `SubscribeAllClient`
(mqtt-bench.go lines 99-117); its loop structure is identical to
`PublishAllClient`. -/
def execSub (opts : ExecOptions) : Nat :=
  execPub opts

/-- The Go function `Publish` (mqtt-bench.go lines 90-96), with the
token's outcome abstracted as `tokenErr`: on an error the failure is
logged ("Publish error: ...") and the function returns normally; it never
signals failure to its caller. The returned value is the list of log
lines it emits. -/
def Publish (tokenErr : Option String) : List String :=
  match tokenErr with
  | some e => ["Publish error: " ++ e]
  | none => []

/-- One Worker's loop (mqtt-bench.go lines 79-83) under a per-iteration
failure oracle: every iteration `0, ..., count-1` calls `Publish` and
collects its log lines; no outcome stops the loop. -/
def workerRun (tokenErr : Nat → Option String) (count : Nat) : List (List String) :=
  (List.range count).map (fun index => Publish (tokenErr index))

/-- All Workers' loops under a failure oracle indexed by (client,
iteration). -/
def allWorkersRun (errs : Nat → Nat → Option String) (numClients count : Nat) :
    List (List (List String)) :=
  (List.range numClients).map (fun id => workerRun (errs id) count)

/-- The connect loop of `Execute` (mqtt-bench.go lines 27-34), counting
down `k` remaining attempts starting at client index `i` under a success
oracle `connOk`: returns the list of client indices connected (in order)
and the `hasErr` flag. On the first failure the loop breaks: the failed
and remaining indices stay `nil` in the Go array. -/
def connectFrom (connOk : Nat → Bool) : Nat → Nat → List Nat × Bool
  | _, 0 => ([], false)
  | i, k + 1 =>
    if connOk i then
      (i :: (connectFrom connOk (i + 1) k).1, (connectFrom connOk (i + 1) k).2)
    else ([], true)

/-- The whole connect phase for `n` clients (indices 0 through n-1). -/
def connectPhase (connOk : Nat → Bool) (n : Nat) : List Nat × Bool :=
  connectFrom connOk 0 n

/-- The data of the report printed at mqtt-bench.go lines 58-63. -/
structure RunReport where
  totalCount : Int
  durationMs : Int
  throughput : ℚ
  line : String

/-- Observable outcome of one `Execute` run: clients connected, clients
disconnected, number of operations performed by the worker phase, and the
report (none when the run aborts silently). -/
structure RunTrace where
  connected : List Nat
  disconnected : List Nat
  totalOps : Nat
  report : Option RunReport

/-- The Go function `Execute` (mqtt-bench.go lines 22-64). `exec`
abstracts the worker-phase function (`PublishAllClient` or
`SubscribeAllClient`) by the number of operations it performs; `connOk`
tells which connect attempts succeed; `t0` is the absolute wall-clock
time in nanoseconds when the timed phase starts (after the 3-second
settle sleep of line 48) and `elapsed` how many nanoseconds the worker
phase takes. If any connect fails, the connected clients are disconnected
and the function returns with no report (lines 37-45). Otherwise the
start and end times are read via `time.Now().Nanosecond()` (lines 50 and
52), all clients are disconnected, and the totals, duration, throughput
and summary line of lines 59-63 are produced. For a negative `ClientNum`
the Go code panics at the slice allocation
`make([]*MQTT.Client, opts.ClientNum)` on line 25 before anything else
happens; the model takes `toNat` there, so it is faithful only for a
non-negative client count, and no theorem below asserts anything about a
run with a negative one. -/
def ExecuteModel (exec : ExecOptions → Nat) (connOk : Nat → Bool)
    (t0 elapsed : Nat) (opts : ExecOptions) : RunTrace :=
  if (connectPhase connOk opts.ClientNum.toNat).2 then
    { connected := (connectPhase connOk opts.ClientNum.toNat).1,
      disconnected := (connectPhase connOk opts.ClientNum.toNat).1,
      totalOps := 0,
      report := none }
  else
    { connected := (connectPhase connOk opts.ClientNum.toNat).1,
      disconnected := List.range opts.ClientNum.toNat,
      totalOps := exec opts,
      report := some
        { totalCount := opts.ClientNum * opts.Count,
          durationMs := reportedDurationMs (nanosecondField t0) (nanosecondField (t0 + elapsed)),
          throughput := ((opts.ClientNum * opts.Count : Int) : ℚ) /
            ((reportedDurationMs (nanosecondField t0) (nanosecondField (t0 + elapsed)) : Int) : ℚ) * 1000,
          line := summaryLine opts.Broker opts.ClientNum opts.Count
            (reportedDurationMs (nanosecondField t0) (nanosecondField (t0 + elapsed)))
            (fmtFixed2 (((opts.ClientNum * opts.Count : Int) : ℚ) /
              ((reportedDurationMs (nanosecondField t0) (nanosecondField (t0 + elapsed)) : Int) : ℚ) * 1000)) } }

/-- The default value of the `-broker` flag (mqtt-bench.go line 164),
which `main` rejects as a placeholder. -/
def placeholderBroker : String :=
  "tcp://\x7bhost\x7d:\x7bport\x7d"

/-- The action-normalisation of `main` (mqtt-bench.go lines 184-189):
publish spellings map to "pub", subscribe spellings to "sub", anything
else to the empty string (Go's zero value, which then fails the check at
line 191). -/
def methodOf (action : String) : String :=
  if action = "p" ∨ action = "pub" ∨ action = "publish" then "pub"
  else if action = "s" ∨ action = "sub" ∨ action = "subscribe" then "sub"
  else ""

/-- Go's conversion `byte(x)` for an `int x`: truncation to the low 8
bits (two's complement), i.e. the Euclidean remainder modulo 256. -/
def byteOfInt (x : Int) : Nat :=
  (x % 256).toNat

/-- The validation-and-construction path of `main` (mqtt-bench.go lines
177-201), given the parsed flag values: reject an empty or placeholder
broker (lines 178-181), reject an unrecognised action (lines 184-194),
and otherwise build the `ExecOptions` passed to `Execute` — the numeric
flags `clients`, `count` and `size` are copied over unchecked and `qos`
is truncated to a byte (lines 196-201). The no-arguments usage path
(lines 172-175) never reaches this code. -/
def mainValidate (broker action : String) (clients count size qos : Int) : Option ExecOptions :=
  if broker = "" ∨ broker = placeholderBroker then none
  else if methodOf action ≠ "pub" ∧ methodOf action ≠ "sub" then none
  else some { Broker := broker, ClientNum := clients, Count := count,
              MessageSize := size, Qos := byteOfInt qos }

/-- The options of the spec's example run: valid broker, clients=2,
count=5, size=0, qos=0. -/
def optsExample : ExecOptions :=
  { Broker := "tcp://localhost:1883", ClientNum := 2, Count := 5, MessageSize := 0, Qos := 0 }

theorem goEncodeRune_ascii (n : Nat) (h : n < 0x80) : goEncodeRune n = [n] := by
  simp [goEncodeRune, utf8EncodeValid, h, show n < 0xD800 by omega]

theorem createLoop_eq_map (n : Nat) : createLoop n = (List.range n).map (fun i => i % 10) := by
  induction n with
  | zero => rfl
  | succ k ih =>
    rw [createLoop, ih, List.range_succ, List.map_append]
    simp [goEncodeRune_ascii (k % 10) (by omega)]

theorem createLoop_length (n : Nat) : (createLoop n).length = n := by
  rw [createLoop_eq_map]; simp

/-- C4: for every size ≥ 0 the generated message has length (in bytes)
exactly `size`, and size 0 yields the empty buffer; the generator is a
pure total function (its embedding is a plain `def` with no error
outcome). -/
theorem C4_message_length (size : Int) (h : 0 ≤ size) :
    ((CreateFixedSizeMessage size).length : Int) = size ∧ CreateFixedSizeMessage 0 = [] := by
  constructor
  · rw [CreateFixedSizeMessage, createLoop_length]; omega
  · rfl

theorem C4_message_length_witness :
    ((CreateFixedSizeMessage 1024).length : Int) = 1024 ∧ CreateFixedSizeMessage 0 = [] :=
  C4_message_length 1024 (by decide)

/-- C3 as stated fails on the source: `CreateFixedSizeMessage 13` is not
the ASCII digit string "0123456789012" the spec describes, because Go's
`string(i % 10)` converts the integer to the code point `i % 10` (bytes
0x00-0x09), not to a digit character. -/
theorem C3_counterexample :
    CreateFixedSizeMessage 13 ≠ specDigitMessage 13 ∧
    specDigitMessage 13 = "0123456789012".data.map Char.toNat ∧
    CreateFixedSizeMessage 13 = [0, 1, 2, 3, 4, 5, 6, 7, 8, 9, 0, 1, 2] :=
  ⟨by decide, by decide, by decide⟩

/-- C3 amended: for every size ≥ 0, byte `i` of the generated message is
the value `i % 10` — the code points 0 through 9 cycling from index 0
(control bytes U+0000-U+0009), not the digit characters. -/
theorem C3_amended_content (size : Int) (i : Nat)
    (h : i < (CreateFixedSizeMessage size).length) :
    (CreateFixedSizeMessage size).get ⟨i, h⟩ = i % 10 := by
  rw [List.get_eq_getElem]
  simp only [CreateFixedSizeMessage, createLoop_eq_map] at h ⊢
  rw [List.getElem_map, List.getElem_range]

theorem C3_amended_content_witness :
    ∃ hb : 12 < (CreateFixedSizeMessage 13).length,
      (CreateFixedSizeMessage 13).get ⟨12, hb⟩ = 12 % 10 :=
  ⟨by decide, C3_amended_content 13 12 (by decide)⟩

theorem decodeOne_utf8 (i : Nat) (h : i < 0x10000) (rest : List Nat) :
    decodeOne (utf8EncodeValid i ++ rest) = some (i, rest) := by
  unfold utf8EncodeValid
  by_cases h1 : i < 0x80
  · rw [if_pos h1]
    simp [decodeOne, h1]
  · rw [if_neg h1]
    by_cases h2 : i < 0x800
    · rw [if_pos h2]
      simp only [List.cons_append, List.nil_append, decodeOne]
      rw [if_neg (by omega), if_pos (by omega)]
      simp only [Option.some.injEq, Prod.mk.injEq]
      exact ⟨by omega, trivial⟩
    · rw [if_neg h2, if_pos h]
      simp only [List.cons_append, List.nil_append, decodeOne]
      rw [if_neg (by omega), if_neg (by omega)]
      simp only [Option.some.injEq, Prod.mk.injEq]
      exact ⟨by omega, trivial⟩

theorem goEncodeRune_eq_utf8 (i : Nat) (h : i < 0xD800) :
    goEncodeRune i = utf8EncodeValid i := by
  unfold goEncodeRune
  rw [if_pos (Or.inl h)]

theorem decodeTopicBody_encode (i j : Nat) (hi : i < 0xD800) (hj : j < 0xD800) :
    decodeTopicBody (goEncodeRune i ++ 47 :: goEncodeRune j) = some (i, j) := by
  rw [goEncodeRune_eq_utf8 i hi, goEncodeRune_eq_utf8 j hj]
  have d2 : decodeOne (utf8EncodeValid j) = some (j, []) := by
    have h0 := decodeOne_utf8 j (by omega) []
    rwa [List.append_nil] at h0
  unfold decodeTopicBody
  rw [decodeOne_utf8 i (by omega) (47 :: utf8EncodeValid j)]
  simp [d2]

/-- C5 as stated fails on the source: with clients=55298 and count=1,
the distinct pairs (55296, 0) and (55297, 0) are both within the
configured bounds, yet they produce the same topic string — 55296 and
55297 are surrogate code points, so Go's `string(id)` maps both to the
replacement character U+FFFD. -/
theorem C5_counterexample :
    ((55296, 0) : Nat × Nat) ≠ (55297, 0) ∧
    55296 < 55298 ∧ 55297 < 55298 ∧ 0 < 1 ∧
    topicName 55296 0 = topicName 55297 0 :=
  ⟨by decide, by decide, by decide, by decide, by decide⟩

/-- C5 amended: the topic-naming function is injective over
(clientIndex, iteration) as long as all indices are below 0xD800 (the
first surrogate code point, 55296) — two distinct pairs in that range
never produce the same topic string. Indices at or above 0xD800 can
collide because every invalid code point encodes as U+FFFD. -/
theorem C5_amended_topic_injective (i j k l : Nat) (hi : i < 0xD800) (hj : j < 0xD800)
    (hk : k < 0xD800) (hl : l < 0xD800) (h : topicName i j = topicName k l) :
    i = k ∧ j = l := by
  have hbody : goEncodeRune i ++ 47 :: goEncodeRune j
      = goEncodeRune k ++ 47 :: goEncodeRune l := by
    have h2 := h
    unfold topicName at h2
    simp only [List.append_assoc, List.singleton_append] at h2
    exact List.append_cancel_left h2
  have e1 := decodeTopicBody_encode i j hi hj
  have e2 := decodeTopicBody_encode k l hk hl
  rw [hbody, e2] at e1
  simp only [Option.some.injEq, Prod.mk.injEq] at e1
  exact ⟨e1.1.symm, e1.2.symm⟩

theorem C5_amended_topic_injective_witness :
    (3 : Nat) = 3 ∧ (4 : Nat) = 4 :=
  C5_amended_topic_injective 3 4 3 4 (by decide) (by decide) (by decide) (by decide) rfl

theorem connectFrom_snd_allTrue (k : Nat) :
    ∀ i, (connectFrom (fun _ => true) i k).2 = false := by
  induction k with
  | zero => intro i; rfl
  | succ m ih => intro i; exact ih (i + 1)

theorem connectFrom_snd_false (connOk : Nat → Bool) (k : Nat) :
    ∀ i, (connectFrom connOk i k).2 = false → ∀ d, d < k → connOk (i + d) = true := by
  induction k with
  | zero => intro i h d hd; exact absurd hd (Nat.not_lt_zero d)
  | succ m ih =>
    intro i h d hd
    by_cases hc : connOk i = true
    · cases d with
      | zero => simpa using hc
      | succ e =>
        have h2 : (connectFrom connOk (i + 1) m).2 = false := by
          rw [connectFrom, if_pos hc] at h
          exact h
        have h3 := ih (i + 1) h2 e (by omega)
        have he : i + 1 + e = i + (e + 1) := by omega
        rwa [he] at h3
    · exfalso
      rw [connectFrom, if_neg hc] at h
      simp at h

/-- C1: if any one of the N connect attempts fails, the run aborts before
the timed phase — zero operations are performed, exactly the client
handles successfully connected so far are disconnected, and no result
summary is produced (silent early return). -/
theorem C1_connect_failure_aborts (exec : ExecOptions → Nat) (connOk : Nat → Bool)
    (t0 elapsed : Nat) (opts : ExecOptions)
    (h : ∃ i, i < opts.ClientNum.toNat ∧ connOk i = false) :
    (ExecuteModel exec connOk t0 elapsed opts).totalOps = 0 ∧
    (ExecuteModel exec connOk t0 elapsed opts).report = none ∧
    (ExecuteModel exec connOk t0 elapsed opts).disconnected =
      (ExecuteModel exec connOk t0 elapsed opts).connected := by
  obtain ⟨i0, hlt, hfail⟩ := h
  have hsnd : (connectPhase connOk opts.ClientNum.toNat).2 = true := by
    cases hb : (connectPhase connOk opts.ClientNum.toNat).2 with
    | true => rfl
    | false =>
      have h1 := connectFrom_snd_false connOk opts.ClientNum.toNat 0 hb i0 hlt
      rw [Nat.zero_add, hfail] at h1
      exact Bool.noConfusion h1
  unfold ExecuteModel
  rw [if_pos hsnd]
  exact ⟨rfl, rfl, rfl⟩

theorem C1_connect_failure_aborts_witness :
    (ExecuteModel execPub (fun i => i != 1) 0 0 optsExample).totalOps = 0 ∧
    (ExecuteModel execPub (fun i => i != 1) 0 0 optsExample).report = none ∧
    (ExecuteModel execPub (fun i => i != 1) 0 0 optsExample).disconnected =
      (ExecuteModel execPub (fun i => i != 1) 0 0 optsExample).connected :=
  C1_connect_failure_aborts execPub (fun i => i != 1) 0 0 optsExample
    ⟨1, by decide, by decide⟩

/-- C2 fails on the source: `Execute` reads `time.Now().Nanosecond()`,
the nanosecond-of-second field, not a timestamp. A worker phase of 200
milliseconds that starts when the wall clock's field is 900000000 ends
when the field is 100000000, and the code reports duration = -800 ms —
negative although the phase took positive time. -/
theorem C2_duration_negative_across_second :
    (0 : Nat) < 200000000 ∧
    nanosecondField 1699999999900000000 = 900000000 ∧
    nanosecondField (1699999999900000000 + 200000000) = 100000000 ∧
    reportedDurationMs (nanosecondField 1699999999900000000)
      (nanosecondField (1699999999900000000 + 200000000)) = -800 ∧
    (ExecuteModel execPub (fun _ => true) 1699999999900000000 200000000
        optsExample).report.map RunReport.durationMs = some (-800) :=
  ⟨by decide, by decide, by decide, by decide, by decide⟩

theorem workerOps_length (id count : Nat) : (workerOps id count).length = count := by
  simp [workerOps]

theorem sum_range_const (n c : Nat) : ((List.range n).map (fun _ => c)).sum = n * c := by
  induction n with
  | zero => simp
  | succ k ih =>
    rw [List.range_succ]
    simp [ih]
    ring

theorem execPub_eq (opts : ExecOptions) :
    execPub opts = opts.ClientNum.toNat * opts.Count.toNat := by
  unfold execPub PublishAllClientOps
  rw [List.map_map]
  have h1 : (List.length ∘ fun id => workerOps id opts.Count.toNat)
      = fun _ => opts.Count.toNat := by
    funext id
    exact workerOps_length id opts.Count.toNat
  rw [h1, sum_range_const]

/-- C6: for clients = N and count = C, a fully successful run reports a
total operation count of exactly N × C, the worker phase performs exactly
N × C operations, and each of the N Workers performs exactly C sequential
operations, every one against its own client handle. -/
theorem C6_total_operations (b : String) (N C : Nat) (sz : Int) (q : Nat) (t0 elapsed : Nat) :
    (ExecuteModel execPub (fun _ => true) t0 elapsed
        { Broker := b, ClientNum := (N : Int), Count := (C : Int),
          MessageSize := sz, Qos := q }).report.map RunReport.totalCount
      = some ((N : Int) * (C : Int)) ∧
    (ExecuteModel execPub (fun _ => true) t0 elapsed
        { Broker := b, ClientNum := (N : Int), Count := (C : Int),
          MessageSize := sz, Qos := q }).totalOps = N * C ∧
    (PublishAllClientOps N C).length = N ∧
    (∀ i, i < N → (PublishAllClientOps N C)[i]? = some (workerOps i C)) ∧
    (∀ i, (workerOps i C).length = C ∧ ∀ p ∈ workerOps i C, p.1 = i) := by
  have hN : ((N : Int)).toNat = N := by omega
  have hC : ((C : Int)).toNat = C := by omega
  have hsnd := connectFrom_snd_allTrue N 0
  unfold ExecuteModel
  rw [if_neg (by simp [connectPhase, hsnd])]
  refine ⟨by simp, ?_, ?_, ?_, ?_⟩
  · show execPub _ = N * C
    rw [execPub_eq]
    simp [hN, hC]
  · simp [PublishAllClientOps]
  · intro i hi
    simp [PublishAllClientOps, List.getElem?_map, List.getElem?_range, hi]
  · intro i
    constructor
    · exact workerOps_length i C
    · intro p hp
      simp only [workerOps, List.mem_map, List.mem_range] at hp
      obtain ⟨idx, hidx, hpe⟩ := hp
      rw [← hpe]

theorem C6_total_operations_witness :
    (ExecuteModel execPub (fun _ => true) 0 400000000
        { Broker := "tcp://localhost:1883", ClientNum := ((2 : Nat) : Int),
          Count := ((5 : Nat) : Int), MessageSize := 0, Qos := 0 }).totalOps = 2 * 5 ∧
    (PublishAllClientOps 2 5)[1]? = some (workerOps 1 5) :=
  ⟨(C6_total_operations ("tcp://localhost:1883") 2 5 0 0 0 400000000).2.1,
   (C6_total_operations ("tcp://localhost:1883") 2 5 0 0 0 400000000).2.2.2.1 1 (by decide)⟩

theorem toString_nat_length_one (k : Nat) (h : k < 10) : (toString k).length = 1 :=
  (by decide : ∀ m : Fin 10, (toString m.val).length = 1) ⟨k, h⟩

theorem toString_nat_length_two (k : Nat) (h1 : 10 ≤ k) (h2 : k < 100) :
    (toString k).length = 2 :=
  (by decide : ∀ m : Fin 100, 10 ≤ m.val → (toString m.val).length = 2) ⟨k, h2⟩ h1

theorem pad2_length (m : Nat) (h : m < 100) : (pad2 m).length = 2 := by
  unfold pad2
  by_cases hm : m < 10
  · rw [if_pos hm, String.length_append, toString_nat_length_one m hm]
    decide
  · rw [if_neg hm, String.length_append, toString_nat_length_two m (by omega) h]
    decide

theorem fmtFixed2_two_decimals (q : ℚ) :
    ∃ a b, fmtFixed2 q = a ++ "." ++ b ∧ b.length = 2 := by
  refine ⟨(if round (q * 100) < 0 then "-" else "") ++
      toString ((round (q * 100)).natAbs / 100),
    pad2 ((round (q * 100)).natAbs % 100), ?_, ?_⟩
  · unfold fmtFixed2
    simp [String.append_assoc]
  · exact pad2_length _ (Nat.mod_lt _ (by norm_num))

/-- C7: at the Reported state the computed throughput equals the total
operation count divided by the elapsed time in seconds (the reported
duration over 1000), and the summary line contains the broker, the client
count, the per-client count, the duration in milliseconds, and the
throughput rendered with two digits after the decimal point. -/
theorem C7_report_contents (exec : ExecOptions → Nat) (connOk : Nat → Bool)
    (t0 elapsed : Nat) (opts : ExecOptions) (r : RunReport)
    (h : (ExecuteModel exec connOk t0 elapsed opts).report = some r)
    (hd : r.durationMs ≠ 0) :
    r.throughput = (r.totalCount : ℚ) / ((r.durationMs : ℚ) / 1000) ∧
    containsSub r.line opts.Broker ∧
    containsSub r.line (toString opts.ClientNum) ∧
    containsSub r.line (toString opts.Count) ∧
    containsSub r.line (toString r.durationMs ++ "ms") ∧
    containsSub r.line (fmtFixed2 r.throughput) ∧
    (∃ a b, fmtFixed2 r.throughput = a ++ "." ++ b ∧ b.length = 2) := by
  unfold ExecuteModel at h
  split at h
  · exact absurd h (by simp)
  · have h2 := Option.some.inj h
    rw [← h2] at hd ⊢
    refine ⟨?_, ?_, ?_, ?_, ?_, ?_, ?_⟩
    · show _ / _ * (1000 : ℚ) = _ / (_ / 1000)
      rw [div_div_eq_mul_div, div_mul_eq_mul_div]
    · exact ⟨"\nPublish result : broker=",
        ", clients=" ++ toString opts.ClientNum ++ ", count=" ++ toString opts.Count ++
          ", duration=" ++ toString (reportedDurationMs (nanosecondField t0)
            (nanosecondField (t0 + elapsed))) ++ "ms, throughput=" ++
          fmtFixed2 (((opts.ClientNum * opts.Count : Int) : ℚ) /
            ((reportedDurationMs (nanosecondField t0) (nanosecondField (t0 + elapsed)) : Int) : ℚ)
            * 1000) ++ "messages/sec\n",
        by simp only [summaryLine, String.append_assoc] <;> rfl⟩
    · exact ⟨"\nPublish result : broker=" ++ opts.Broker ++ ", clients=",
        ", count=" ++ toString opts.Count ++ ", duration=" ++
          toString (reportedDurationMs (nanosecondField t0)
            (nanosecondField (t0 + elapsed))) ++ "ms, throughput=" ++
          fmtFixed2 (((opts.ClientNum * opts.Count : Int) : ℚ) /
            ((reportedDurationMs (nanosecondField t0) (nanosecondField (t0 + elapsed)) : Int) : ℚ)
            * 1000) ++ "messages/sec\n",
        by simp only [summaryLine, String.append_assoc] <;> rfl⟩
    · exact ⟨"\nPublish result : broker=" ++ opts.Broker ++ ", clients=" ++
          toString opts.ClientNum ++ ", count=",
        ", duration=" ++ toString (reportedDurationMs (nanosecondField t0)
            (nanosecondField (t0 + elapsed))) ++ "ms, throughput=" ++
          fmtFixed2 (((opts.ClientNum * opts.Count : Int) : ℚ) /
            ((reportedDurationMs (nanosecondField t0) (nanosecondField (t0 + elapsed)) : Int) : ℚ)
            * 1000) ++ "messages/sec\n",
        by simp only [summaryLine, String.append_assoc] <;> rfl⟩
    · exact ⟨"\nPublish result : broker=" ++ opts.Broker ++ ", clients=" ++
          toString opts.ClientNum ++ ", count=" ++ toString opts.Count ++ ", duration=",
        ", throughput=" ++
          fmtFixed2 (((opts.ClientNum * opts.Count : Int) : ℚ) /
            ((reportedDurationMs (nanosecondField t0) (nanosecondField (t0 + elapsed)) : Int) : ℚ)
            * 1000) ++ "messages/sec\n",
        by simp only [summaryLine, String.append_assoc] <;> rfl⟩
    · exact ⟨"\nPublish result : broker=" ++ opts.Broker ++ ", clients=" ++
          toString opts.ClientNum ++ ", count=" ++ toString opts.Count ++ ", duration=" ++
          toString (reportedDurationMs (nanosecondField t0)
            (nanosecondField (t0 + elapsed))) ++ "ms, throughput=",
        "messages/sec\n",
        by simp only [summaryLine, String.append_assoc] <;> rfl⟩
    · exact fmtFixed2_two_decimals _

theorem C7_report_contents_witness :
    ∃ r, (ExecuteModel execPub (fun _ => true) 0 400000000 optsExample).report = some r ∧
      r.durationMs ≠ 0 ∧
      r.throughput = (r.totalCount : ℚ) / ((r.durationMs : ℚ) / 1000) ∧
      containsSub r.line optsExample.Broker ∧
      (∃ a b, fmtFixed2 r.throughput = a ++ "." ++ b ∧ b.length = 2) :=
  ⟨_, rfl, by decide,
    (C7_report_contents execPub (fun _ => true) 0 400000000 optsExample _ rfl (by decide)).1,
    (C7_report_contents execPub (fun _ => true) 0 400000000 optsExample _ rfl (by decide)).2.1,
    (C7_report_contents execPub (fun _ => true) 0 400000000 optsExample _ rfl (by decide)).2.2.2.2.2.2⟩

theorem workerRun_length (tokenErr : Nat → Option String) (count : Nat) :
    (workerRun tokenErr count).length = count := by
  simp [workerRun]

/-- C8: an individual publish or subscribe failure is non-fatal — the
failure is logged ("Publish error: ..."), the owning Worker still
performs all of its iterations, sibling Workers each still perform all of
theirs, and the reported total-operation count (clients × count, an
attempt count) is unaffected by any per-operation failures. -/
theorem C8_operation_failure_nonfatal (errs : Nat → Nat → Option String) (N C : Nat) :
    (allWorkersRun errs N C).length = N ∧
    (∀ w ∈ allWorkersRun errs N C, w.length = C) ∧
    (allWorkersRun errs N C).map List.length
      = (allWorkersRun (fun _ _ => (none : Option String)) N C).map List.length ∧
    (∀ e, Publish (some e) = ["Publish error: " ++ e]) ∧
    (∀ exec connOk t0 elapsed opts r,
      (ExecuteModel exec connOk t0 elapsed opts).report = some r →
      r.totalCount = opts.ClientNum * opts.Count) := by
  refine ⟨by simp [allWorkersRun], ?_, ?_, fun e => rfl, ?_⟩
  · intro w hw
    simp only [allWorkersRun, List.mem_map, List.mem_range] at hw
    obtain ⟨a, ha, hw2⟩ := hw
    rw [← hw2]
    exact workerRun_length (errs a) C
  · simp [allWorkersRun, List.map_map, Function.comp_def, workerRun_length]
  · intro exec connOk t0 elapsed opts r h
    unfold ExecuteModel at h
    split at h
    · exact absurd h (by simp)
    · rw [← Option.some.inj h]

/-- Failure oracle used by the C8 witness: the first operation of the
first Worker fails, everything else succeeds. -/
def errsW : Nat → Nat → Option String :=
  fun i j => if i = 0 ∧ j = 0 then some ("connection reset") else none

theorem C8_operation_failure_nonfatal_witness :
    (allWorkersRun errsW 2 3).length = 2 ∧
    (allWorkersRun errsW 2 3).map List.length
      = (allWorkersRun (fun _ _ => (none : Option String)) 2 3).map List.length ∧
    (∃ r, (ExecuteModel execPub (fun _ => true) 0 400000000 optsExample).report = some r ∧
      r.totalCount = optsExample.ClientNum * optsExample.Count) :=
  ⟨(C8_operation_failure_nonfatal errsW 2 3).1,
   (C8_operation_failure_nonfatal errsW 2 3).2.2.1,
   ⟨_, rfl, (C8_operation_failure_nonfatal errsW 2 3).2.2.2.2
      execPub (fun _ => true) 0 400000000 optsExample _ rfl⟩⟩

/-- C9 as stated fails on the source: `main` validates only the broker
and the action. The numeric flags are not validated: a non-positive
client count, a non-positive per-client count, a negative message size
and a QoS outside 0..2 all pass through to the `ExecOptions` handed to
`Execute`. -/
theorem C9_counterexample :
    mainValidate ("tcp://localhost:1883") ("pub") (-5) (-7) (-3) 9 =
      some { Broker := "tcp://localhost:1883", ClientNum := -5, Count := -7,
             MessageSize := -3, Qos := 9 } ∧
    ¬ (0 < (-5 : Int)) ∧ ¬ (0 < (-7 : Int)) ∧ ¬ (0 ≤ (-3 : Int)) ∧ ¬ ((9 : Nat) ≤ 2) :=
  ⟨by decide, by decide, by decide, by decide, by decide⟩

/-- C9 amended: before the Driver runs, only the broker (non-empty,
non-placeholder) and the action (a publish or subscribe spelling) are
validated; the client count, per-client count and message size are passed
through to the `ExecOptions` exactly as given, the QoS is truncated to a
byte without a range check, and the Driver itself never re-validates —
for a non-negative client count it runs and reports even when the
per-client count is non-positive, the size negative or the QoS out of
range. (A negative client count instead crashes the Driver at the Go
slice allocation, a runtime panic rather than validation; nothing is
asserted about that path.) -/
theorem C9_amended_validation (broker action : String) (clients count size qos : Int)
    (opts : ExecOptions)
    (h : mainValidate broker action clients count size qos = some opts) :
    (broker ≠ "" ∧ broker ≠ placeholderBroker) ∧
    (methodOf action = "pub" ∨ methodOf action = "sub") ∧
    opts.Broker = broker ∧
    opts.ClientNum = clients ∧
    opts.Count = count ∧
    opts.MessageSize = size ∧
    opts.Qos = byteOfInt qos ∧
    (0 ≤ clients →
      ∀ exec t0 elapsed, ((ExecuteModel exec (fun _ => true) t0 elapsed opts).report).isSome
        = true) := by
  unfold mainValidate at h
  split_ifs at h with h1 h2
  have h3 := Option.some.inj h
  rw [← h3]
  push_neg at h1
  refine ⟨h1, ?_, rfl, rfl, rfl, rfl, rfl, ?_⟩
  · rcases Decidable.em (methodOf action = "pub") with hp | hp
    · exact Or.inl hp
    · rcases Decidable.em (methodOf action = "sub") with hs | hs
      · exact Or.inr hs
      · exact absurd ⟨hp, hs⟩ h2
  · intro _hc exec t0 elapsed
    have hsnd := connectFrom_snd_allTrue clients.toNat 0
    unfold ExecuteModel
    rw [if_neg (by simp [connectPhase, hsnd])]
    rfl

theorem C9_amended_validation_witness :
    ∃ opts, mainValidate ("tcp://localhost:1883") ("sub") 2 (-7) (-3) 9 = some opts ∧
      (opts.ClientNum = 2 ∧ opts.Count = -7 ∧ opts.MessageSize = -3 ∧
        opts.Qos = byteOfInt 9) ∧
      ((ExecuteModel execPub (fun _ => true) 0 0 opts).report).isSome = true :=
  ⟨_, rfl,
    ⟨(C9_amended_validation ("tcp://localhost:1883") ("sub") 2 (-7) (-3) 9 _ rfl).2.2.2.1,
     (C9_amended_validation ("tcp://localhost:1883") ("sub") 2 (-7) (-3) 9 _ rfl).2.2.2.2.1,
     (C9_amended_validation ("tcp://localhost:1883") ("sub") 2 (-7) (-3) 9 _ rfl).2.2.2.2.2.1,
     (C9_amended_validation ("tcp://localhost:1883") ("sub") 2 (-7) (-3) 9 _ rfl).2.2.2.2.2.2.1⟩,
    (C9_amended_validation ("tcp://localhost:1883") ("sub") 2 (-7) (-3) 9 _ rfl).2.2.2.2.2.2.2
      (by decide) execPub 0 0⟩

theorem summaryLine_label (b : String) (c n d : Int) (ts : String) :
    ∃ rest, summaryLine b c n d ts = "\n" ++ "Publish result" ++ rest :=
  ⟨" : broker=" ++ b ++ ", clients=" ++ toString c ++ ", count=" ++ toString n ++
      ", duration=" ++ toString d ++ "ms, throughput=" ++ ts ++ "messages/sec\n",
    by simp only [summaryLine, String.append_assoc] <;> rfl⟩

/-- C10: whatever worker function the run used (publish or subscribe),
the summary line printed at the Reported state always begins — right
after its leading newline — with the label "Publish result". -/
theorem C10_label_fixed (exec : ExecOptions → Nat) (connOk : Nat → Bool)
    (t0 elapsed : Nat) (opts : ExecOptions) (r : RunReport)
    (h : (ExecuteModel exec connOk t0 elapsed opts).report = some r) :
    ∃ rest, r.line = "\n" ++ "Publish result" ++ rest := by
  unfold ExecuteModel at h
  split at h
  · exact absurd h (by simp)
  · rw [← Option.some.inj h]
    exact summaryLine_label _ _ _ _ _

theorem C10_label_fixed_witness :
    ∃ r, (ExecuteModel execSub (fun _ => true) 0 400000000 optsExample).report = some r ∧
      ∃ rest, r.line = "\n" ++ "Publish result" ++ rest :=
  ⟨_, rfl, C10_label_fixed execSub (fun _ => true) 0 400000000 optsExample _ rfl⟩

end MqttBench
